import Mathlib

/-!
Verification of the lifecycle-managed HTTP server composition in
`src/main.go` (an uber-fx demo wiring a logger, two handlers, a
`http.ServeMux` router and a lifecycle-managed `http.Server`).

The Go code is shallowly embedded:

* Errors of the Go `error` interface are represented by their message
  strings (`GoErr`).
* `http.ResponseWriter` is modelled with the documented net/http commit
  semantics: the first `Write` implicitly calls `WriteHeader(200)`, and
  any `WriteHeader` after the status has been committed is superfluous
  and ignored.  I/O failures of the underlying connection are supplied
  as oracles (`Option GoErr`): `none` means the write succeeds, `some e`
  means it fails with error `e` (a failed write still commits the
  status, but appends no bytes).
* The request body stream is represented by the outcome of reading it
  in full: `Except GoErr String`.
* `http.ServeMux` registration (`mux.Handle`) is modelled from its
  documented behaviour: it panics (here: returns `.error`) on the empty
  pattern and on a duplicate registration; patterns without a trailing
  slash match the request path exactly.
-/

deriving instance DecidableEq for Except

/-- A Go `error` value, represented by its message string. -/
abbrev GoErr := String

/-- State of an `http.ResponseWriter`: the committed status code (if any
status has been committed yet) and the bytes written so far. -/
structure ResponseWriter where
  status : Option Nat
  body : String
deriving DecidableEq, Repr

/-- The response writer handed to a handler before it writes anything. -/
def ResponseWriter.empty : ResponseWriter := ⟨none, ""⟩

/-- net/http `WriteHeader`: commits the status code; once a status is
committed, further calls are superfluous and ignored. -/
def ResponseWriter.writeHeader (w : ResponseWriter) (code : Nat) : ResponseWriter :=
  match w.status with
  | none => { w with status := some code }
  | some _ => w

/-- net/http `Write`: if no status has been committed yet, commits
status 200 first; then appends the bytes.  The oracle `outcome` says
whether the underlying write fails: a failed write still commits the
status but appends nothing, and the error is returned to the handler. -/
def ResponseWriter.write (w : ResponseWriter) (s : String) (outcome : Option GoErr) :
    ResponseWriter × Option GoErr :=
  let w1 := w.writeHeader 200
  match outcome with
  | none => ({ w1 with body := w1.body ++ s }, none)
  | some e => (w1, some e)

/-- net/http `http.Error(w, msg, code)`: commits `code` (if possible)
and writes `msg` followed by a newline. -/
def httpError (w : ResponseWriter) (msg : String) (code : Nat) (outcome : Option GoErr) :
    ResponseWriter :=
  ((w.writeHeader code).write (msg ++ "\n") outcome).1

/-- The final response seen by the client once the handler returns:
net/http sends status 200 when the handler committed no status. -/
structure Response where
  status : Nat
  body : String
deriving DecidableEq, Repr

/-- Finalize a response writer into the response delivered to the client. -/
def finalize (w : ResponseWriter) : Response :=
  ⟨w.status.getD 200, w.body⟩

/-- `io.Copy(w, r.Body)` as used by the echo handler: drains the body
stream into the writer.  A read failure of the body, or a write failure
(oracle `outcome`), is returned as the copy error.  An empty body makes
no write call at all (so it commits no status). -/
def ioCopy (w : ResponseWriter) (body : Except GoErr String) (outcome : Option GoErr) :
    ResponseWriter × Option GoErr :=
  match body with
  | .error e => (w, some e)
  | .ok b => if b = "" then (w, none) else w.write b outcome

/-- `EchoHandler.ServeHTTP` (src/main.go:84-93): logs the request path,
copies the request body to the response, and on copy failure writes the
error to stderr only.  Result: final writer state, slog lines, stderr lines. -/
def echoServeHTTP (path : String) (body : Except GoErr String) (outcome : Option GoErr)
    (w : ResponseWriter) : ResponseWriter × List String × List String :=
  let logs := ["Handling request path=" ++ path]
  let (w1, copyErr) := ioCopy w body outcome
  match copyErr with
  | some e => (w1, logs, ["Failed to handle request: " ++ e])
  | none => (w1, logs, [])

/-- `EchoHandler.Pattern` (src/main.go:95-97). -/
def EchoHandler.Pattern : String := "/echo"

/-- `HelloHandler.ServeHTTP` (src/main.go:147-160): reads the whole
body; on read failure logs the error and sends `http.Error 500`; else
writes `"Hello, <body>\n"`; on write failure logs the error and sends
`http.Error 500`.  `outcome` is the oracle for the greeting write and
`errOutcome` the oracle for the `http.Error` write.  Result: final
writer state and slog lines. -/
def helloServeHTTP (body : Except GoErr String) (outcome errOutcome : Option GoErr)
    (w : ResponseWriter) : ResponseWriter × List String :=
  match body with
  | .error e =>
      (httpError w "Internal server error" 500 errOutcome,
       ["Failed to read request err=" ++ e])
  | .ok b =>
      let (w1, writeErr) := w.write ("Hello, " ++ b ++ "\n") outcome
      match writeErr with
      | some e =>
          (httpError w1 "Internal server error" 500 errOutcome,
           ["Failed to write response err=" ++ e])
      | none => (w1, [])

/-- `HelloHandler.Pattern` (src/main.go:143-145). -/
def HelloHandler.Pattern : String := "/hello"

/-- Identifies which registered handler a mux entry dispatches to. -/
inductive HandlerTag where
  | echo
  | hello
deriving DecidableEq, Repr

/-- Exact-match lookup of a registered pattern, as `http.ServeMux` does
for patterns without a trailing slash. -/
def findRoute (p : String) : List (String × α) → Option α
  | [] => none
  | (q, h) :: rest => if q = p then some h else findRoute p rest

/-- `http.ServeMux.Handle` as called by `NewServeMux`: panics (modelled
as `.error`) on an empty pattern or a duplicate registration, otherwise
adds the entry to the dispatch table. -/
def muxHandle (mux : List (String × α)) (pat : String) (h : α) :
    Except String (List (String × α)) :=
  if pat = "" then .error "http: invalid pattern"
  else if (findRoute pat mux).isSome then
    .error ("http: multiple registrations for " ++ pat)
  else .ok (mux ++ [(pat, h)])

/-- The registration loop of `NewServeMux` (src/main.go:112-115):
`for _, route := range routes { mux.Handle(route.Pattern(), route) }`,
where a `Handle` panic aborts construction. -/
def registerAll (mux : List (String × α)) : List (String × α) → Except String (List (String × α))
  | [] => .ok mux
  | (p, h) :: rest =>
      match muxHandle mux p h with
      | .error e => .error e
      | .ok mux1 => registerAll mux1 rest

/-- `NewServeMux` (src/main.go:101-117): builds the dispatch table from
the given routes, starting from an empty mux. -/
def newServeMux (routes : List (String × α)) : Except String (List (String × α)) :=
  registerAll [] routes

/-- The routes supplied to `NewServeMux` in `main` (src/main.go:26-27):
the echo handler and the hello handler, each paired with its
`Pattern()`. -/
def mainRoutes : List (String × HandlerTag) :=
  [(EchoHandler.Pattern, .echo), (HelloHandler.Pattern, .hello)]

/-- The dispatch table of the router built by `NewServeMux` from the
program's routes (empty only if construction failed). -/
def mainMux : List (String × HandlerTag) :=
  match newServeMux mainRoutes with
  | .ok m => m
  | .error _ => []

/-- Running the handler a mux entry dispatches to, keeping only the
response writer state. -/
def runRoute (t : HandlerTag) (path : String) (body : Except GoErr String)
    (outcome errOutcome : Option GoErr) (w : ResponseWriter) : ResponseWriter :=
  match t with
  | .echo => (echoServeHTTP path body outcome w).1
  | .hello => (helloServeHTTP body outcome errOutcome w).1

/-- The response of net/http's `NotFoundHandler`. -/
def notFoundResponse : Response := ⟨404, "404 page not found\n"⟩

/-- A whole request through the program: exact-match dispatch on the
router built by `NewServeMux`, then the matched handler, then response
finalization; unmatched paths get the not-found response. -/
def serveApp (path : String) (body : Except GoErr String)
    (outcome errOutcome : Option GoErr) : Response :=
  match findRoute path mainMux with
  | some t => finalize (runRoute t path body outcome errOutcome ResponseWriter.empty)
  | none => notFoundResponse

/-- The `Config` record (src/main.go:40-42): a single environment-name
field, supplied once by `fx.Supply` in `main`. -/
structure Config where
  env : String
deriving DecidableEq, Repr

/-- The fields of the `http.Server` value built by `NewHTTPServer`. -/
structure HTTPServer where
  addr : String
  handler : List (String × HandlerTag)
deriving DecidableEq, Repr

/-- `NewHTTPServer` (src/main.go:46-47): builds the server with the
fixed address `":8098"` and the mux as handler; the config is a
parameter but does not flow into the server value. -/
def newHTTPServer (_cfg : Config) (mux : List (String × HandlerTag)) : HTTPServer :=
  ⟨":8098", mux⟩

/-- The startup line printed by the `OnStart` hook (src/main.go:54). -/
def startMessage (srv : HTTPServer) (cfg : Config) : String :=
  "Starting HTTP server at " ++ srv.addr ++ " in " ++ cfg.env ++ " mode"

/-- Observable outcome of the `OnStart` hook: the error it returns, and
whether the background serve loop was spawned and the startup line printed. -/
structure StartEffects where
  result : Except GoErr Unit
  serveLoopSpawned : Bool
  stdout : List String
deriving DecidableEq, Repr

/-- The `OnStart` hook (src/main.go:49-62): binds the listener
(`bindResult` is the outcome of `net.Listen`); on failure it returns
that error, spawning nothing; on success it prints the startup line,
spawns the serve loop in the background and returns no error. -/
def onStart (srv : HTTPServer) (cfg : Config) (bindResult : Except GoErr Unit) :
    StartEffects :=
  match bindResult with
  | .error e => ⟨.error e, false, []⟩
  | .ok _ => ⟨.ok (), true, [startMessage srv cfg]⟩

/-- The error `http.Server.Serve` returns after `Shutdown` closes the
server (net/http's `ErrServerClosed`). -/
def errServerClosed : GoErr := "http: Server closed"

/-- Observable outcome of the background serve-loop goroutine
(src/main.go:55-60) once `srv.Serve` has returned. -/
structure ServeGoroutineEffects where
  stdout : List String
  processTerminated : Bool
deriving DecidableEq, Repr

/-- The serve-loop goroutine body (src/main.go:55-60): it prints every
non-nil error returned by `srv.Serve` — the `if err != nil` test does
not exempt `ErrServerClosed` — and contains no call that terminates the
process. `serveResult` is the error `srv.Serve` returned, if any. -/
def serveGoroutine (serveResult : Option GoErr) : ServeGoroutineEffects :=
  match serveResult with
  | some e => ⟨["HTTP server error: " ++ e], false⟩
  | none => ⟨[], false⟩

/-- The distinct error a context reports when its deadline passes
(Go's `context.DeadlineExceeded`). -/
def errDeadlineExceeded : GoErr := "context deadline exceeded"

/-- Modelled from net/http's documented contract of
`http.Server.Shutdown(ctx)` (the callee of the `OnStop` hook, which is
standard-library code, not part of src/): it returns the context's
error — deadline exceeded — if the context expires while requests are
still in flight, and nil once all in-flight requests finished before
the deadline. -/
def serverShutdown (inflightPastDeadline : Bool) : Except GoErr Unit :=
  if inflightPastDeadline then .error errDeadlineExceeded else .ok ()

/-- The `OnStop` hook (src/main.go:63-65): `return srv.Shutdown(ctx)` —
it forwards the shutdown outcome to its caller unchanged. -/
def onStop (inflightPastDeadline : Bool) : Except GoErr Unit :=
  serverShutdown inflightPastDeadline

/-- A structured logger, modelled by the list of attributes attached to it. -/
abbrev Logger := List (String × String)

/-- The `fx.Decorate` function in `main` (src/main.go:34-36):
`l.With(slog.String("app", c.Env))`. -/
def decorateLogger (l : Logger) (c : Config) : Logger :=
  l ++ [("app", c.env)]

/-! ## Helper lemmas about exact-match lookup and registration -/

lemma findRoute_eq_none_iff {α : Type _} (p : String) (l : List (String × α)) :
    findRoute p l = none ↔ p ∉ l.map Prod.fst := by
  induction l with
  | nil => simp [findRoute]
  | cons x rest ih =>
      obtain ⟨q, h⟩ := x
      by_cases hq : q = p
      · subst hq; simp [findRoute]
      · simp [findRoute, hq, ih, Ne.symm hq]

lemma findRoute_eq_some_iff {α : Type _} (p : String) (h : α) (l : List (String × α))
    (nd : (l.map Prod.fst).Nodup) :
    findRoute p l = some h ↔ (p, h) ∈ l := by
  induction l with
  | nil => simp [findRoute]
  | cons x rest ih =>
      obtain ⟨q, k⟩ := x
      simp only [List.map_cons, List.nodup_cons] at nd
      by_cases hq : q = p
      · subst hq
        rw [show findRoute q ((q, k) :: rest) = some k from by rw [findRoute, if_pos rfl]]
        constructor
        · intro hk
          obtain rfl : k = h := Option.some.inj hk
          exact List.mem_cons_self _ _
        · intro hmem
          rcases List.mem_cons.mp hmem with heq | hmem
          · injection heq with h1 h2
            rw [h2]
          · exact absurd (List.mem_map_of_mem Prod.fst hmem) nd.1
      · simp [findRoute, hq, ih nd.2, Ne.symm hq]

lemma findRoute_perm {α : Type _} {l1 l2 : List (String × α)} (hp : l1.Perm l2)
    (nd : (l1.map Prod.fst).Nodup) (p : String) :
    findRoute p l1 = findRoute p l2 := by
  have nd2 : (l2.map Prod.fst).Nodup := ((hp.map Prod.fst).nodup_iff).mp nd
  cases h1 : findRoute p l1 with
  | none =>
      have hnm := (findRoute_eq_none_iff p l1).mp h1
      exact ((findRoute_eq_none_iff p l2).mpr
        (fun hm => hnm ((hp.map Prod.fst).mem_iff.mpr hm))).symm
  | some h =>
      have hm := (findRoute_eq_some_iff p h l1 nd).mp h1
      exact ((findRoute_eq_some_iff p h l2 nd2).mpr (hp.mem_iff.mp hm)).symm

lemma registerAll_ok {α : Type _} (routes mux : List (String × α))
    (hne : ∀ q ∈ routes.map Prod.fst, q ≠ "")
    (nd : ((mux ++ routes).map Prod.fst).Nodup) :
    registerAll mux routes = .ok (mux ++ routes) := by
  induction routes generalizing mux with
  | nil => simp [registerAll]
  | cons x rest ih =>
      obtain ⟨p, h⟩ := x
      have hp : p ≠ "" := hne p (by simp)
      simp only [List.map_append, List.map_cons, List.nodup_append] at nd
      have hpm : p ∉ mux.map Prod.fst := fun hmem => nd.2.2 hmem (by simp)
      have hfr : findRoute p mux = none := (findRoute_eq_none_iff p mux).mpr hpm
      have hstep : muxHandle mux p h = .ok (mux ++ [(p, h)]) := by
        simp [muxHandle, hp, hfr]
      have hrec : registerAll (mux ++ [(p, h)]) rest = .ok ((mux ++ [(p, h)]) ++ rest) := by
        apply ih
        · intro q hq; exact hne q (by simp [hq])
        · simp only [List.append_assoc, List.singleton_append, List.map_append, List.map_cons,
            List.nodup_append]
          exact nd
      calc registerAll mux ((p, h) :: rest)
          = registerAll (mux ++ [(p, h)]) rest := by simp [registerAll, hstep]
        _ = .ok ((mux ++ [(p, h)]) ++ rest) := hrec
        _ = .ok (mux ++ (p, h) :: rest) := by simp

lemma registerAll_fails {α : Type _} (routes mux : List (String × α))
    (ndm : (mux.map Prod.fst).Nodup)
    (hdup : ¬ ((mux ++ routes).map Prod.fst).Nodup) :
    ∃ e, registerAll mux routes = .error e := by
  induction routes generalizing mux with
  | nil => exact absurd (by simpa using ndm) hdup
  | cons x rest ih =>
      obtain ⟨p, h⟩ := x
      by_cases hp : p = ""
      · exact ⟨"http: invalid pattern", by simp [registerAll, muxHandle, hp]⟩
      by_cases hpm : p ∈ mux.map Prod.fst
      · have hfr : findRoute p mux ≠ none := by
          simpa [findRoute_eq_none_iff] using hpm
        have hsome : (findRoute p mux).isSome := Option.ne_none_iff_isSome.mp hfr
        exact ⟨"http: multiple registrations for " ++ p,
          by simp [registerAll, muxHandle, hp, hsome]⟩
      · have hfr : findRoute p mux = none := (findRoute_eq_none_iff p mux).mpr hpm
        have hstep : muxHandle mux p h = .ok (mux ++ [(p, h)]) := by
          simp [muxHandle, hp, hfr]
        have hnd1 : ((mux ++ [(p, h)]).map Prod.fst).Nodup := by
          simp only [List.map_append, List.map_cons, List.map_nil, List.nodup_append]
          exact ⟨ndm, List.nodup_singleton p, by simpa using hpm⟩
        have hdup1 : ¬ (((mux ++ [(p, h)]) ++ rest).map Prod.fst).Nodup := by
          simpa only [List.append_assoc, List.singleton_append] using hdup
        obtain ⟨e, he⟩ := ih (mux ++ [(p, h)]) hnd1 hdup1
        exact ⟨e, by simp [registerAll, hstep, he]⟩

/-! ## Claim theorems -/

/-- C1: for every request body `B` (including the empty body), a request
to path `/hello` is dispatched to the Hello handler and, when reading
the body and writing the response succeed, the response has status 200
and body exactly `"Hello, " ++ B ++ "\n"`. -/
theorem hello_request_ok (B : String) :
    findRoute "/hello" mainMux = some HandlerTag.hello ∧
    serveApp "/hello" (Except.ok B) none none = ⟨200, "Hello, " ++ B ++ "\n"⟩ :=
  ⟨rfl, rfl⟩

/-- C2: for every request body `B`, a request to path `/echo` is
dispatched to the Echo handler and, when copying succeeds, the response
has status 200 and body exactly `B`. -/
theorem echo_request_ok (B : String) :
    findRoute "/echo" mainMux = some HandlerTag.echo ∧
    serveApp "/echo" (Except.ok B) none none = ⟨200, B⟩ := by
  refine ⟨rfl, ?_⟩
  by_cases hB : B = ""
  · subst hB; rfl
  · show finalize (runRoute HandlerTag.echo "/echo" (Except.ok B) none none
      ResponseWriter.empty) = ⟨200, B⟩
    simp [runRoute, echoServeHTTP, ioCopy, hB, ResponseWriter.write, ResponseWriter.writeHeader,
      ResponseWriter.empty, finalize]

/-- C3: every request whose path differs from `/echo` and `/hello`,
dispatched through the router built by `NewServeMux`, yields the
not-found response with status 404 (exact-match dispatch only). -/
theorem unknown_path_404 (p : String) (h1 : p ≠ "/echo") (h2 : p ≠ "/hello")
    (body : Except GoErr String) (outcome errOutcome : Option GoErr) :
    serveApp p body outcome errOutcome = notFoundResponse ∧
    notFoundResponse.status = 404 := by
  refine ⟨?_, rfl⟩
  have hd : findRoute p mainMux = none := by
    rw [show mainMux = [("/echo", HandlerTag.echo), ("/hello", HandlerTag.hello)] from rfl]
    simp [findRoute, Ne.symm h1, Ne.symm h2]
  unfold serveApp
  rw [hd]

/-- Witness for C3 at the concrete path `/nope`. -/
theorem unknown_path_404_witness :
    serveApp "/nope" (Except.ok "x") none none = notFoundResponse ∧
    notFoundResponse.status = 404 :=
  unknown_path_404 "/nope" (by decide) (by decide) (Except.ok "x") none none

/-- C4 counterexample: when the greeting write fails (here with error
`"broken pipe"` on body `"Bob"`), the response status delivered to the
caller is 200, not 500 — the failed write already committed status 200,
so the subsequent `http.Error` cannot change it. -/
theorem hello_write_failure_not_500 :
    serveApp "/hello" (Except.ok "Bob") (some "broken pipe") none
      = ⟨200, "Internal server error\n"⟩ ∧
    (serveApp "/hello" (Except.ok "Bob") (some "broken pipe") none).status ≠ 500 := by
  decide

/-- C4 amended: if reading the request body fails, the response has
status 500 and body exactly `"Internal server error\n"`; if writing the
response fails, the handler attempts the same 500 error response but the
status delivered is the already-committed 200, with the error body
appended; in both cases the underlying error detail is only logged and
never appears in the response. -/
theorem hello_failure_responses (e : GoErr) (B : String) (outcome : Option GoErr) :
    serveApp "/hello" (Except.error e) outcome none = ⟨500, "Internal server error\n"⟩ ∧
    (helloServeHTTP (Except.error e) outcome none ResponseWriter.empty).2
      = ["Failed to read request err=" ++ e] ∧
    serveApp "/hello" (Except.ok B) (some e) none = ⟨200, "Internal server error\n"⟩ ∧
    (helloServeHTTP (Except.ok B) (some e) none ResponseWriter.empty).2
      = ["Failed to write response err=" ++ e] :=
  ⟨rfl, rfl, rfl, rfl⟩

/-- C5: if the routes given to `NewServeMux` contain two routes with
equal patterns, router construction itself fails (the registration loop
aborts with an error before any request can be served). -/
theorem newServeMux_duplicate_fails {α : Type _} (routes : List (String × α))
    (hdup : ¬ (routes.map Prod.fst).Nodup) :
    ∃ e, newServeMux routes = Except.error e :=
  registerAll_fails routes [] (by simp) (by simpa using hdup)

/-- Witness for C5: two routes both claiming pattern `/echo`. -/
theorem newServeMux_duplicate_fails_witness :
    ∃ e, newServeMux [("/echo", HandlerTag.echo), ("/echo", HandlerTag.hello)]
      = Except.error e :=
  newServeMux_duplicate_fails _ (by decide)

/-- C6: if binding the listener fails, the `OnStart` hook returns that
error, spawns no serve loop and prints nothing (the application is not
reported as running); if binding succeeds, it returns no error, prints
the startup line and spawns the serve loop in the background. -/
theorem onStart_bind_outcomes (srv : HTTPServer) (cfg : Config) (e : GoErr) :
    onStart srv cfg (Except.error e) = ⟨Except.error e, false, []⟩ ∧
    onStart srv cfg (Except.ok ()) = ⟨Except.ok (), true, [startMessage srv cfg]⟩ :=
  ⟨rfl, rfl⟩

/-- C7 counterexample: after a deliberate shutdown `srv.Serve` returns
`ErrServerClosed`, and the serve-loop goroutine prints it — the error
is reported, not suppressed. -/
theorem serveGoroutine_reports_server_closed :
    (serveGoroutine (some errServerClosed)).stdout
      = ["HTTP server error: http: Server closed"] ∧
    (serveGoroutine (some errServerClosed)).stdout ≠ [] := by
  decide

/-- C7 amended: every non-nil serve-loop error — including the expected
`ErrServerClosed` after a deliberate shutdown — is logged in the same
way, and no serve-loop outcome terminates the process. -/
theorem serveGoroutine_logs_all_errors (e : GoErr) :
    serveGoroutine (some e) = ⟨["HTTP server error: " ++ e], false⟩ ∧
    serveGoroutine none = ⟨[], false⟩ :=
  ⟨rfl, rfl⟩

/-- C8: when requests are still in flight past the deadline, the
`OnStop` hook returns the distinct deadline-exceeded error to its
caller; when shutdown completes before the deadline, it returns no
error. -/
theorem onStop_outcomes :
    onStop true = Except.error errDeadlineExceeded ∧
    onStop false = Except.ok () ∧
    errDeadlineExceeded ≠ errServerClosed := by
  decide

/-- C9: the server's address is the fixed constant `":8098"` for every
config; the server value does not depend on the config at all; the
config's env field appears only in the startup message text and the
logger decoration. -/
theorem server_addr_fixed (c1 c2 : Config) (mux : List (String × HandlerTag)) :
    (newHTTPServer c1 mux).addr = ":8098" ∧
    newHTTPServer c1 mux = newHTTPServer c2 mux ∧
    startMessage (newHTTPServer c1 mux) c1
      = "Starting HTTP server at :8098 in " ++ c1.env ++ " mode" ∧
    decorateLogger [] c1 = [("app", c1.env)] :=
  ⟨rfl, rfl, rfl, rfl⟩

/-- C10: for any two route collections that are permutations of each
other, with pairwise distinct non-empty patterns, `NewServeMux`
succeeds on both and the two routers dispatch every request path to the
same handler. -/
theorem newServeMux_perm_dispatch {α : Type _} (l1 l2 : List (String × α)) (hp : l1.Perm l2)
    (nd : (l1.map Prod.fst).Nodup) (hne : ∀ q ∈ l1.map Prod.fst, q ≠ "") :
    ∃ m1 m2, newServeMux l1 = Except.ok m1 ∧ newServeMux l2 = Except.ok m2 ∧
      ∀ p, findRoute p m1 = findRoute p m2 := by
  have nd2 : (l2.map Prod.fst).Nodup := ((hp.map Prod.fst).nodup_iff).mp nd
  have hne2 : ∀ q ∈ l2.map Prod.fst, q ≠ "" := fun q hq =>
    hne q ((hp.map Prod.fst).mem_iff.mpr hq)
  exact ⟨l1, l2, registerAll_ok l1 [] hne (by simpa using nd),
    registerAll_ok l2 [] hne2 (by simpa using nd2),
    fun p => findRoute_perm hp nd p⟩

/-- Witness for C10: the program's two routes in both orders. -/
theorem newServeMux_perm_dispatch_witness :
    ∃ m1 m2,
      newServeMux [("/echo", HandlerTag.echo), ("/hello", HandlerTag.hello)] = Except.ok m1 ∧
      newServeMux [("/hello", HandlerTag.hello), ("/echo", HandlerTag.echo)] = Except.ok m2 ∧
      ∀ p, findRoute p m1 = findRoute p m2 :=
  newServeMux_perm_dispatch _ _ (List.Perm.swap _ _ _) (by decide) (by decide)
